import Mathlib

/-!
Shallow embedding of the NitratePrediction repository
(`src/loadingdata.py` and `src/inspectingdatafiles.py`).

Modelling conventions:
* Python floats/ints are modelled as `ℚ` (exact arithmetic); `np.nan` used as
  "missing numeric" becomes `Option.none`, so `value_num : Option ℚ`.
* Python `None` for strings becomes `Option.none`, so `value_str : Option String`.
* A Python value arriving from the PI Web API (`v` in `normalize_pi_value`) is
  the tagged union `RawValue`.  A dict is modelled by four constructors
  according to which of the keys `"Name"` / `"Value"` are present, so that the
  serializers can recurse structurally (and hence compute in the kernel).
* `json.dumps(v, default=str)` inside `try/except` is modelled by an
  `Option String`-valued serializer parameter `dumps`; the `except` branch is
  `Option.getD` with the plain stringification `pyStr v`.
* Sorting: `sort_values` on `["series", "count"]` is `np.lexsort`, a stable
  sort, modelled with `List.insertionSort` (stable).  The single-column
  timestamp sorts are also modelled with `List.insertionSort`; every theorem
  that touches them uses pairwise-distinct keys, so tie order is irrelevant.
* The textual rendering of numbers inside `value_raw` / `str(v)` is an
  abbreviated decimal form (`ratText`); no claim constrains those characters.
-/

/-- Codepoint-wise lexicographic strict order on character lists (the order
Python uses to compare `str` values). -/
def strLtB : List Char → List Char → Bool
  | [], [] => false
  | [], _ :: _ => true
  | _ :: _, [] => false
  | a :: as, b :: bs =>
      if a.toNat < b.toNat then true
      else if b.toNat < a.toNat then false
      else strLtB as bs

/-- Python-style `<` on strings (codepoint lexicographic). -/
def strLt (a b : String) : Bool := strLtB a.data b.data

/-! ## ValueNormalizer (`src/loadingdata.py`, `normalize_pi_value`) -/

/-- A raw historian value as delivered to `normalize_pi_value`: number
(int/float), Python bool, text, `None`, some other object (carrying its
`str()` form), or a dict with optional `"Name"` / `"Value"` entries. -/
inductive RawValue where
  | num (q : ℚ)
  | bool (b : Bool)
  | str (s : String)
  | null
  | other (reprText : String)
  | dictNV (name : RawValue) (value : RawValue)
  | dictN (name : RawValue)
  | dictV (value : RawValue)
  | dictE

/-- The `v.get("Name")` accessor: the dict entry when present. -/
def dictName : RawValue → Option RawValue
  | .dictNV n _ => some n
  | .dictN n => some n
  | _ => Option.none

/-- The `v.get("Value")` accessor: the dict entry when present. -/
def dictValue : RawValue → Option RawValue
  | .dictNV _ v => some v
  | .dictV v => some v
  | _ => Option.none

/-- The `isinstance(v, dict)` test. -/
def isDict : RawValue → Bool
  | .dictNV _ _ => true
  | .dictN _ => true
  | .dictV _ => true
  | .dictE => true
  | _ => false

/-- Decimal text of a rational; integers print without a denominator.  This
abbreviates the exact Python rendering of numbers, on which no claim depends. -/
def ratText (q : ℚ) : String :=
  if q.den = 1 then toString q.num else toString q.num ++ "/" ++ toString q.den

/-- Python `repr` of a `RawValue` (as it appears inside `str(dict)`). -/
def pyRepr : RawValue → String
  | .num q => ratText q
  | .bool b => cond b "True" "False"
  | .str s => "\x27" ++ s ++ "\x27"
  | .null => "None"
  | .other r => r
  | .dictNV n v =>
      "\x7b\x27Name\x27: " ++ pyRepr n ++ ", \x27Value\x27: " ++ pyRepr v ++ "\x7d"
  | .dictN n => "\x7b\x27Name\x27: " ++ pyRepr n ++ "\x7d"
  | .dictV v => "\x7b\x27Value\x27: " ++ pyRepr v ++ "\x7d"
  | .dictE => "\x7b\x7d"

/-- Python `str(v)`: identical to `repr` except on strings. -/
def pyStr (v : RawValue) : String :=
  match v with
  | .str s => s
  | _ => pyRepr v

/-- The body of `json.dumps(v, default=str)` (string escaping not modelled;
no claim inspects those characters). -/
def jdump : RawValue → String
  | .num q => ratText q
  | .bool b => cond b "true" "false"
  | .str s => "\"" ++ s ++ "\""
  | .null => "null"
  | .other r => "\"" ++ r ++ "\""
  | .dictNV n v =>
      "\x7b\"Name\": " ++ jdump n ++ ", \"Value\": " ++ jdump v ++ "\x7d"
  | .dictN n => "\x7b\"Name\": " ++ jdump n ++ "\x7d"
  | .dictV v => "\x7b\"Value\": " ++ jdump v ++ "\x7d"
  | .dictE => "\x7b\x7d"

/-- The serializer used by the repository: `json.dumps(·, default=str)`.
On `RawValue` inputs it always succeeds. -/
def json_dumps (v : RawValue) : Option String := some (jdump v)

/-- The module constant `BAD_STATE_NAMES` of `src/loadingdata.py`. -/
def BAD_STATE_NAMES : List String :=
  ["No Data", "Bad Input", "Configure", "Pt Created", "Shutdown", "I/O Timeout"]

/-- Digit list to the natural number it denotes. -/
def digitsVal (l : List Char) : Nat :=
  l.foldl (fun a c => a * 10 + (c.toNat - 48)) 0

/-- Leading/trailing whitespace removal (Python `strip`, as applied by the
numeric parser). -/
def trimChars (l : List Char) : List Char :=
  ((l.dropWhile Char.isWhitespace).reverse.dropWhile Char.isWhitespace).reverse

/-- Model of `pd.to_numeric(s, errors="coerce")` followed by `pd.notna`:
parse an optionally signed decimal literal with optional fraction and
exponent; `Option.none` when the text is not numeric. -/
def toNumeric (s : String) : Option ℚ :=
  let l := trimChars s.data
  let (neg, l1) :=
    match l with
    | '-' :: r => (true, r)
    | '+' :: r => (false, r)
    | _ => (false, l)
  let ip := l1.takeWhile Char.isDigit
  let l2 := l1.dropWhile Char.isDigit
  let (fp, l3) :=
    match l2 with
    | '.' :: r => (r.takeWhile Char.isDigit, r.dropWhile Char.isDigit)
    | _ => ([], l2)
  let expPart : Option (Bool × List Char × List Char) :=
    match l3 with
    | 'e' :: r =>
        (match r with
         | '-' :: r2 => some (true, r2.takeWhile Char.isDigit, r2.dropWhile Char.isDigit)
         | '+' :: r2 => some (false, r2.takeWhile Char.isDigit, r2.dropWhile Char.isDigit)
         | _ => some (false, r.takeWhile Char.isDigit, r.dropWhile Char.isDigit))
    | 'E' :: r =>
        (match r with
         | '-' :: r2 => some (true, r2.takeWhile Char.isDigit, r2.dropWhile Char.isDigit)
         | '+' :: r2 => some (false, r2.takeWhile Char.isDigit, r2.dropWhile Char.isDigit)
         | _ => some (false, r.takeWhile Char.isDigit, r.dropWhile Char.isDigit))
    | _ => Option.none
  match expPart with
  | some (eneg, ed, rest) =>
      if rest ≠ [] ∨ ed = [] ∨ (ip = [] ∧ fp = []) then Option.none
      else
        let base : ℚ := (digitsVal ip : ℚ) + (digitsVal fp : ℚ) / (10 : ℚ) ^ fp.length
        let scaled : ℚ :=
          if eneg then base / (10 : ℚ) ^ digitsVal ed else base * (10 : ℚ) ^ digitsVal ed
        some (if neg then -scaled else scaled)
  | Option.none =>
      if l3 ≠ [] ∨ (ip = [] ∧ fp = []) then Option.none
      else
        let base : ℚ := (digitsVal ip : ℚ) + (digitsVal fp : ℚ) / (10 : ℚ) ^ fp.length
        some (if neg then -base else base)

/-- The `float()` coercion on values passing `isinstance(v, (int, float))`
(Python bools are ints: `float(True) = 1.0`). -/
def boolFloat (b : Bool) : ℚ := if b then 1 else 0

/-- The `name if isinstance(name, str) else None` expression. -/
def nameIfStr : Option RawValue → Option String
  | some (.str s) => some s
  | _ => Option.none

/-- The dict branch of `normalize_pi_value` after the bad-state check
(lines 49-62 of `src/loadingdata.py`): numeric inner value, then
numeric-looking string inner value, then the name as text, else nothing. -/
def structCase (nm : Option String) (inner : Option RawValue) (raw : String) :
    Option ℚ × Option String × String :=
  match inner with
  | some (.num q) => (some q, nm, raw)
  | some (.bool b) => (some (boolFloat b), nm, raw)
  | some (.str t) =>
      match toNumeric t with
      | some q => (some q, nm, raw)
      | Option.none => (Option.none, nm, raw)
  | _ => (Option.none, nm, raw)

/-- The body of `normalize_pi_value`, generalized over the raw-JSON
serializer so that the `try/except` fallback (`value_raw = str(v)`) is
visible: the serializer returning `Option.none` is the `except` path. -/
def normalize_pi_value_gen (dumps : RawValue → Option String) (v : RawValue) :
    Option ℚ × Option String × String :=
  let value_raw := (dumps v).getD (pyStr v)
  if isDict v then
    match nameIfStr (dictName v) with
    | some n =>
        if n ∈ BAD_STATE_NAMES then (Option.none, some n, value_raw)
        else structCase (some n) (dictValue v) value_raw
    | Option.none => structCase Option.none (dictValue v) value_raw
  else
    match v with
    | .num q => (some q, Option.none, value_raw)
    | .bool b => (some (boolFloat b), Option.none, value_raw)
    | .str s =>
        match toNumeric s with
        | some q => (some q, Option.none, value_raw)
        | Option.none => (Option.none, some s, value_raw)
    | _ => (Option.none, some (pyStr v), value_raw)

/-- `normalize_pi_value` of `src/loadingdata.py` (lines 26-76). -/
def normalize_pi_value (v : RawValue) : Option ℚ × Option String × String :=
  normalize_pi_value_gen json_dumps v

/-! ## SeriesFetcher (`src/loadingdata.py`, `fetch_recorded_all`) -/

/-- The module constant `BASE`. -/
def BASE : String := "https://pi-vision.facilities.uiowa.edu/piwebapi"

/-- Query parameters of the initial recorded-data request. -/
structure ReqParams where
  startTime : String
  endTime : String
  maxCount : Nat
  selectedFields : String
deriving DecidableEq

/-- One element of a page's `Items` array: optional `Timestamp` and
optional `Value`. -/
structure PageItem where
  itemTimestamp : Option String
  itemValue : Option RawValue

/-- One page of the recorded-data response: `Items` and `Links.Next`
(`Option.none` models both a missing `Links`/`Next` and `null`). -/
structure Page where
  pageItems : List PageItem
  pageNext : Option String

/-- A row appended to `rows` inside the fetch loop (timestamp still the raw
text from the response). -/
structure RawRow where
  timestamp : String
  value_num : Option ℚ
  value_str : Option String
  value_raw : String
deriving DecidableEq

/-- The per-page item processing of the fetch loop (lines 128-141): items
lacking a `Timestamp` are skipped entirely; a missing `Value` is normalized
as Python `None`. -/
def itemRows (items : List PageItem) : List RawRow :=
  items.filterMap fun it =>
    match it.itemTimestamp with
    | Option.none => Option.none
    | some ts =>
        let r := normalize_pi_value (it.itemValue.getD RawValue.null)
        some ⟨ts, r.1, r.2.1, r.2.2⟩

/-- The `while True` pagination loop (lines 122-150), with explicit fuel.
It also returns the request log: the `(url, params)` of every `session.get`
issued, in order.  The loop ends when `Links.Next` is missing or empty
(Python falsy); otherwise the next link fully replaces the url and
`params` becomes `None`. -/
def fetchLoop (server : String → Option ReqParams → Page) :
    Nat → String → Option ReqParams → List RawRow × List (String × Option ReqParams)
  | 0, _, _ => ([], [])
  | fuel + 1, url, params =>
      let page := server url params
      let newRows := itemRows page.pageItems
      let nl := page.pageNext.getD ""
      if nl = "" then (newRows, [(url, params)])
      else
        let rest := fetchLoop server fuel nl Option.none
        (newRows ++ rest.1, (url, params) :: rest.2)

/-- A record of the returned frame, after timestamp parsing. -/
structure ParsedRow where
  timestamp : ℚ
  value_num : Option ℚ
  value_str : Option String
  value_raw : String
deriving DecidableEq

/-- Ascending-timestamp comparison on parsed rows. -/
def rowLE (a b : ParsedRow) : Prop := a.timestamp ≤ b.timestamp

instance : DecidableRel rowLE := fun a b => inferInstanceAs (Decidable (a.timestamp ≤ b.timestamp))

/-- Post-processing of lines 152-158: empty frame returned as is; otherwise
parse timestamps (`errors="coerce"`), drop unparseable ones, sort ascending
by timestamp and reindex. -/
def postprocess (parseTs : String → Option ℚ) (rows : List RawRow) : List ParsedRow :=
  if rows.isEmpty then []
  else
    let parsed := rows.filterMap fun r =>
      (parseTs r.timestamp).map fun t => ⟨t, r.value_num, r.value_str, r.value_raw⟩
    List.insertionSort rowLE parsed

/-- `fetch_recorded_all` (lines 101-158), generalized over the HTTP server
(a function from request to page), the timestamp parser, and the loop fuel.
Returns the final frame's rows together with the request log. -/
def fetch_recorded_all (server : String → Option ReqParams → Page)
    (parseTs : String → Option ℚ) (fuel : Nat) (webid : String)
    (start_time end_time : String) (page_size : Nat) :
    List ParsedRow × List (String × Option ReqParams) :=
  let url := BASE ++ "/streams/" ++ webid ++ "/recorded"
  let params : ReqParams :=
    ⟨start_time, end_time, page_size, "Items.Timestamp;Items.Value;Links.Next"⟩
  let r := fetchLoop server fuel url (some params)
  (postprocess parseTs r.1, r.2)

/-- A concrete timestamp parser for witnesses: texts that are decimal
naturals (seconds). -/
def tsParse (s : String) : Option ℚ :=
  if s.data ≠ [] ∧ s.data.all Char.isDigit then some ((digitsVal s.data : ℚ)) else Option.none

/-! ## Persistence (`src/loadingdata.py`, `pull_one_tag_to_parquet`) -/

/-- The column list of the frame built by `fetch_recorded_all` (line 152). -/
def fetch_cols : List String := ["timestamp", "value_num", "value_str", "value_raw"]

/-- A persisted parquet file: its column list, the constant provenance
columns when inserted, and the data rows. -/
structure PersistedDF where
  cols : List String
  provenance : Option (String × String)
  data : List ParsedRow
deriving DecidableEq

/-- Lines 176-181: `tag` and `path` are inserted at positions 0 and 1 only
when the frame is non-empty. -/
def persist_df (tag_name tag_path : String) (data : List ParsedRow) : PersistedDF :=
  if data.isEmpty then ⟨fetch_cols, Option.none, data⟩
  else ⟨"tag" :: "path" :: fetch_cols, some (tag_name, tag_path), data⟩

/-- The external collaborators of one series pull: point resolution
(`get_point_webid_by_path`, raising on HTTP error or missing `WebId`),
the whole paged fetch (raising on any page-request failure), and the
parquet write (an error message when the write fails). -/
structure PiEnv where
  resolve : String → Except String String
  fetchDF : String → Except String (List ParsedRow)
  persistErr : String → Option String

/-- The persisted-file store: path ↦ file, most recent first. -/
abbrev FileStore := List (String × PersistedDF)

/-- `pull_one_tag_to_parquet` (lines 161-182): resolve the path to a WebId,
fetch the frame, insert provenance columns, write the parquet.  Any raised
error propagates and leaves the store untouched (the write is the only
store-mutating step and it is last). -/
def pull_one_tag_to_parquet (env : PiEnv) (tag_name tag_path raw_dir : String)
    (fs : FileStore) : Except String String × FileStore :=
  match env.resolve tag_path with
  | .error e => (.error e, fs)
  | .ok webid =>
      match env.fetchDF webid with
      | .error e => (.error e, fs)
      | .ok df =>
          let outpath := raw_dir ++ "/" ++ tag_name ++ ".parquet"
          let pdf := persist_df tag_name tag_path df
          match env.persistErr outpath with
          | some e => (.error e, fs)
          | Option.none => (.ok outpath, (outpath, pdf) :: fs)

/-- The `__main__` loop (lines 211-216): each tag is pulled inside
`try/except`; a failure prints one `[FAILED]` line naming the tag, its path
and the error, and the loop proceeds to the next tag. -/
def main_loop (env : PiEnv) (raw_dir : String) :
    List (String × String) → List String × FileStore → List String × FileStore
  | [], acc => acc
  | tp :: rest, acc =>
      let r := pull_one_tag_to_parquet env tp.1 tp.2 raw_dir acc.2
      let line :=
        match r.1 with
        | .ok out => "Saved " ++ tp.1 ++ " -> " ++ out
        | .error e => "[FAILED] " ++ tp.1 ++ " (" ++ tp.2 ++ ") :: " ++ e
      main_loop env raw_dir rest (acc.1 ++ [line], r.2)

/-- The whole `__main__` run over a tag ↦ path list. -/
def run_main (env : PiEnv) (raw_dir : String) (tags : List (String × String)) :
    List String × FileStore :=
  main_loop env raw_dir tags ([], [])

/-- The console line produced for one tag (a function of the environment's
answers for this tag's own requests only). -/
def logLineOf (env : PiEnv) (raw_dir : String) (tp : String × String) : String :=
  match (pull_one_tag_to_parquet env tp.1 tp.2 raw_dir []).1 with
  | .ok out => "Saved " ++ tp.1 ++ " -> " ++ out
  | .error e => "[FAILED] " ++ tp.1 ++ " (" ++ tp.2 ++ ") :: " ++ e

/-! ## DiagnosticsEngine (`src/inspectingdatafiles.py`) -/

/-- Ascending sort of rationals, modelling `Series.sort_values()`. -/
def sortQ (l : List ℚ) : List ℚ := List.insertionSort (fun a b : ℚ => a ≤ b) l

/-- Consecutive differences, modelling `ts.diff().dropna()` on a series. -/
def consecutiveDiffs : List ℚ → List ℚ
  | a :: b :: rest => (b - a) :: consecutiveDiffs (b :: rest)
  | _ => []

/-- `Series.median()`: middle element of the sorted values, or the mean of
the two middle elements (callers guard against the empty list). -/
def medianOfList (l : List ℚ) : ℚ :=
  let s := sortQ l
  let n := s.length
  if n % 2 = 1 then s.getD (n / 2) 0
  else (s.getD (n / 2 - 1) 0 + s.getD (n / 2) 0) / 2

/-- `infer_median_interval_seconds` (`src/inspectingdatafiles.py` lines
16-26): drop nulls, sort, absent when fewer than two values remain, else the
median of consecutive differences.  Note: duplicates are NOT removed. -/
def infer_median_interval_seconds (ts : List (Option ℚ)) : Option ℚ :=
  if ts.isEmpty then Option.none
  else
    let t := sortQ (ts.filterMap id)
    if t.length < 2 then Option.none
    else
      let deltas := consecutiveDiffs t
      if deltas.isEmpty then Option.none
      else some (medianOfList deltas)

/-- Modelled from the claim's words, for comparison: the same computation
over the DISTINCT non-null timestamps. -/
def median_interval_distinct (ts : List (Option ℚ)) : Option ℚ :=
  let t := sortQ (ts.filterMap id).dedup
  if t.length < 2 then Option.none
  else some (medianOfList (consecutiveDiffs t))

/-- The amended description of the source computation, written
independently: all non-null timestamps, duplicates retained; absent when
fewer than two non-null timestamps. -/
def median_interval_all_nonnull (ts : List (Option ℚ)) : Option ℚ :=
  let t := sortQ (ts.filterMap id)
  if t.length < 2 then Option.none
  else some (medianOfList (consecutiveDiffs t))

/-- Round half to even to an integer (the rounding of Python's `round` and
of `format(x, ".Nf")` on exactly representable values). -/
def roundHalfEven (q : ℚ) : ℤ :=
  let f := ⌊q⌋
  let r := q - f
  if r < 1 / 2 then f
  else if 1 / 2 < r then f + 1
  else if f % 2 = 0 then f else f + 1

/-- Decimal digits of `n`, left-padded with zeros to width `d`. -/
def natPad (n d : Nat) : String :=
  let s := toString n
  String.mk (List.replicate (d - s.length) '0') ++ s

/-- Python `f"{q:.df}"`: fixed-point rendering with `d` decimals, rounding
half to even. -/
def fmtFixed (q : ℚ) (d : Nat) : String :=
  let m := roundHalfEven (q * (10 : ℚ) ^ d)
  let sign := if m < 0 then "-" else ""
  let n := m.natAbs
  if d = 0 then sign ++ toString n
  else sign ++ toString (n / 10 ^ d) ++ "." ++ natPad (n % 10 ^ d) d

/-- `human_interval` (`src/inspectingdatafiles.py` lines 29-38).  The
`None`/`NaN` guard is the `Option.none` case. -/
def human_interval : Option ℚ → String
  | Option.none => "NA"
  | some seconds =>
      if seconds < 60 then fmtFixed seconds 0 ++ "s"
      else if seconds < 3600 then fmtFixed (seconds / 60) 1 ++ " min"
      else if seconds < 86400 then fmtFixed (seconds / 3600) 2 ++ " hr"
      else fmtFixed (seconds / 86400) 2 ++ " d"

/-- Python `round(q, 2)` (half to even). -/
def round2 (q : ℚ) : ℚ := (roundHalfEven (q * 100) : ℚ) / 100

/-- One record of a persisted series as read back by `inspect_one_file`,
after the timestamp re-parse (`errors="coerce"`): unparseable or missing
entries are `Option.none`. -/
structure InspectRow where
  timestamp : Option ℚ
  value_num : Option ℚ
  value_str : Option String
deriving DecidableEq

/-- The summary dict built by `inspect_one_file` (lines 79-93). -/
structure Summary where
  series : String
  file : String
  rows : Nat
  timestamp_nonnull : Nat
  start_utc : Option ℚ
  end_utc : Option ℚ
  unique_timestamps : Nat
  duplicate_timestamps : ℤ
  median_interval : String
  median_interval_seconds : Option ℚ
  value_num_nonnull : Nat
  value_num_pct : ℚ
  value_str_nonnull : Nat

/-- Minimum of a list of rationals (`Series.min()`; `Option.none` on an
all-null or empty series, i.e. pandas `NaT`). -/
def listMinQ (l : List ℚ) : Option ℚ :=
  l.foldl (fun acc x =>
    match acc with
    | Option.none => some x
    | some m => some (min m x)) Option.none

/-- Maximum of a list of rationals (`Series.max()`). -/
def listMaxQ (l : List ℚ) : Option ℚ :=
  l.foldl (fun acc x =>
    match acc with
    | Option.none => some x
    | some m => some (max m x)) Option.none

/-- The per-series summary computation of `inspect_one_file` (lines 41-93);
the categorical state-count frame it also returns is modelled separately as
input to the cross-series merge. -/
def inspect_one_file_summary (series file : String) (rows : List InspectRow) : Summary :=
  let n := rows.length
  let tsVals := (rows.map (·.timestamp)).filterMap id
  let ts_nonnull := tsVals.length
  let n_unique := tsVals.dedup.length
  let value_num_nonnull := ((rows.map (·.value_num)).filterMap id).length
  let pct : ℚ := if n = 0 then 0 else (value_num_nonnull : ℚ) / (n : ℚ) * 100
  let interval := infer_median_interval_seconds (rows.map (·.timestamp))
  { series := series
    file := file
    rows := n
    timestamp_nonnull := ts_nonnull
    start_utc := listMinQ tsVals
    end_utc := listMaxQ tsVals
    unique_timestamps := n_unique
    duplicate_timestamps := (ts_nonnull : ℤ) - (n_unique : ℤ)
    median_interval := human_interval interval
    median_interval_seconds := interval
    value_num_nonnull := value_num_nonnull
    value_num_pct := round2 pct
    value_str_nonnull := ((rows.map (·.value_str)).filterMap id).length }

/-! ## Cross-series state-count merge (`src/inspectingdatafiles.py`,
`main`, lines 119-123) -/

/-- One row of the concatenated `states_df` (already counted per file by
`value_counts`). -/
structure SCRow where
  series : String
  value_str : String
  count : Nat
deriving DecidableEq

/-- The sort key of `states_df.sort_values(["series", "count"],
ascending=[True, False])`: series ascending, count descending; equal keys
are left in input order (lexsort is stable). -/
def scR (a b : SCRow) : Prop :=
  strLt a.series b.series = true ∨ (a.series = b.series ∧ b.count ≤ a.count)

instance : DecidableRel scR := fun a b => by unfold scR; infer_instance

/-- `groupby("series").cumcount() + 1`: each row receives its 1-based
occurrence index within its series, in current row order, implemented with
a running per-series counter. -/
def cumcountRanks : List (String × Nat) → List SCRow → List (SCRow × Nat)
  | _, [] => []
  | seen, r :: rest =>
      let c := (seen.lookup r.series).getD 0 + 1
      (r, c) :: cumcountRanks ((r.series, c) :: seen) rest

/-- Lines 119-123: stable sort by (series asc, count desc), per-series
running rank from 1, keep rank ≤ 10, then DROP the rank column. -/
def state_counts_table (rows : List SCRow) : List SCRow :=
  ((cumcountRanks [] (List.insertionSort scR rows)).filter fun rc => rc.2 ≤ 10).map (·.1)

/-- The claim's sort key: series ascending, count descending, label
ascending for ties of equal count. -/
def scRclaim (a b : SCRow) : Prop :=
  strLt a.series b.series = true ∨
    (a.series = b.series ∧
      (b.count < a.count ∨
        (a.count = b.count ∧ (strLt a.value_str b.value_str = true ∨ a.value_str = b.value_str))))

instance : DecidableRel scRclaim := fun a b => by unfold scRclaim; infer_instance

/-- Rank of each row as its 1-based occurrence index within its series,
computed positionally from the preceding rows. -/
def positionalRanks : List SCRow → List SCRow → List (SCRow × Nat)
  | _, [] => []
  | pre, r :: rest =>
      (r, pre.countP (fun x => x.series == r.series) + 1) :: positionalRanks (pre ++ [r]) rest

/-- Modelled from the claim's words, for comparison: sort with the claimed
label tie-break, assign per-series ranks 1.., retain rank ≤ 10, and KEEP the
rank column. -/
def claimed_state_counts_table (rows : List SCRow) : List (SCRow × Nat) :=
  (positionalRanks [] (List.insertionSort scRclaim rows)).filter fun rc => rc.2 ≤ 10

/-- The amended description of the source computation, written
independently of the running-counter implementation: stable sort by
(series asc, count desc), keep each row whose positional occurrence index
within its series is at most 10, rank column dropped. -/
def state_counts_table_positional (rows : List SCRow) : List SCRow :=
  ((positionalRanks [] (List.insertionSort scR rows)).filter fun rc => rc.2 ≤ 10).map (·.1)

/-! ## Concrete fixtures for witnesses -/

/-- Five page items with distinct, increasing, parseable timestamps. -/
def item1 : PageItem := ⟨some "10", some (.num 1)⟩

def item2 : PageItem := ⟨some "20", some (.num 2)⟩

def item3 : PageItem := ⟨some "30", some (.num 3)⟩

def item4 : PageItem := ⟨some "40", some (.num 4)⟩

def item5 : PageItem := ⟨some "50", some (.num 5)⟩

/-- A three-page demo server: continuation links on the first two pages. -/
def demoServer : String → Option ReqParams → Page := fun url _ =>
  if url = "nextA" then ⟨[item3, item4], some "nextB"⟩
  else if url = "nextB" then ⟨[item5], Option.none⟩
  else ⟨[item1, item2], some "nextA"⟩

/-- An environment whose point resolution always fails. -/
def envResolveFail : PiEnv :=
  ⟨fun _ => .error "No WebId in /points response", fun _ => .ok [], fun _ => Option.none⟩

/-- An environment where everything succeeds and the fetch returns no
records. -/
def envEmptyOk : PiEnv :=
  ⟨fun _ => .ok "W1", fun _ => .ok [], fun _ => Option.none⟩

/-! ## Theorems -/

section
attribute [local semireducible] Rat.add Rat.mul Rat.inv Rat.sub

/-- Helper: the third component of the normalizer's result is always the
serialized raw text, with fallback to the plain stringification. -/
theorem normalize_raw_component (dumps : RawValue → Option String) (v : RawValue) :
    (normalize_pi_value_gen dumps v).2.2 = (dumps v).getD (pyStr v) := by
  unfold normalize_pi_value_gen
  cases v <;> simp only [isDict, nameIfStr, dictName, dictValue, structCase] <;>
    repeat' first
      | rfl
      | split

/-- C1: a structured-state input whose name is text in the bad-state set
(the default `BAD_STATE_NAMES`) normalizes to `(absent, name, value_raw)`
regardless of the inner value — whether the `Value` entry is any raw value
or missing altogether. -/
theorem C1_bad_state_priority (name : String) (inner : RawValue)
    (h : name ∈ BAD_STATE_NAMES) :
    normalize_pi_value (RawValue.dictNV (.str name) inner) =
      (Option.none, some name, jdump (RawValue.dictNV (.str name) inner)) ∧
    normalize_pi_value (RawValue.dictN (.str name)) =
      (Option.none, some name, jdump (RawValue.dictN (.str name))) := by
  unfold normalize_pi_value normalize_pi_value_gen
  simp [isDict, dictName, nameIfStr, json_dumps, h]

/-- C1 witness: `normalize({Name: "Shutdown", Value: 5})` returns
`(absent, "Shutdown", rawText)` although the inner value is numeric. -/
theorem C1_bad_state_priority_witness :
    "Shutdown" ∈ BAD_STATE_NAMES ∧
    normalize_pi_value (RawValue.dictNV (.str "Shutdown") (.num 5)) =
      (Option.none, some "Shutdown", "\x7b\"Name\": \"Shutdown\", \"Value\": 5\x7d") := by
  refine ⟨by decide, ?_⟩
  rw [(C1_bad_state_priority "Shutdown" (.num 5) (by decide)).1]
  decide

/-- C2: for every raw value and every outcome of the serializer, `normalize`
returns a well-formed triple whose raw component is the serialization, and
when serialization fails the raw component falls back to the plain
stringification of the input; the result is a function of the input alone. -/
theorem C2_normalize_total (dumps : RawValue → Option String) (v : RawValue) :
    (∃ n s, normalize_pi_value_gen dumps v = (n, s, (dumps v).getD (pyStr v))) ∧
    (dumps v = Option.none → (normalize_pi_value_gen dumps v).2.2 = pyStr v) := by
  constructor
  · refine ⟨(normalize_pi_value_gen dumps v).1, (normalize_pi_value_gen dumps v).2.1, ?_⟩
    rw [← normalize_raw_component dumps v]
  · intro h
    rw [normalize_raw_component dumps v, h]
    rfl

/-- C2 witness: with a serializer that fails on everything, the raw text of
a normalized plain string is its stringification. -/
theorem C2_normalize_total_witness :
    ((fun _ : RawValue => (Option.none : Option String)) (RawValue.str "OFFLINE")) = Option.none ∧
    (normalize_pi_value_gen (fun _ => Option.none) (RawValue.str "OFFLINE")).2.2 = "OFFLINE" :=
  ⟨rfl, (C2_normalize_total (fun _ => Option.none) (RawValue.str "OFFLINE")).2 rfl⟩

/-- C10 as stated is false: for a structured state whose name is the
bad-state label `"Shutdown"`, a boolean inner value does NOT produce
`value_num = 1.0` — bad-state detection fires first and `value_num` is
absent. -/
theorem C10_counterexample :
    (normalize_pi_value (RawValue.dictNV (.str "Shutdown") (.bool true))).1 = Option.none ∧
    (normalize_pi_value (RawValue.dictNV (.str "Shutdown") (.bool true))).1 ≠ some 1 := by
  decide

/-- C10 amended: booleans pass the numeric `isinstance` test, so
`normalize(True) = (1.0, absent, "true")`; and a structured state with
inner value `True` yields `value_num = 1.0` whenever its name is not a
bad-state label (also when the name entry is missing). -/
theorem C10_bool_numeric (nm : RawValue)
    (h : ∀ s, nm = RawValue.str s → s ∉ BAD_STATE_NAMES) :
    normalize_pi_value (RawValue.bool true) = (some 1, Option.none, "true") ∧
    (normalize_pi_value (RawValue.dictNV nm (RawValue.bool true))).1 = some 1 ∧
    (normalize_pi_value (RawValue.dictV (RawValue.bool true))).1 = some 1 := by
  refine ⟨by decide, ?_, by decide⟩
  unfold normalize_pi_value normalize_pi_value_gen
  cases nm with
  | str s =>
      simp [isDict, dictName, dictValue, nameIfStr, structCase, boolFloat, h s rfl]
  | _ => simp [isDict, dictName, dictValue, nameIfStr, structCase, boolFloat]

/-- C10 witness: a structured state with no name entry and inner value
`True` has `value_num = 1.0`. -/
theorem C10_bool_numeric_witness :
    (normalize_pi_value (RawValue.dictNV RawValue.null (RawValue.bool true))).1 = some 1 :=
  (C10_bool_numeric RawValue.null (fun _ hs => RawValue.noConfusion hs)).2.1

end

section
attribute [local semireducible] Rat.add Rat.mul Rat.inv Rat.sub

/-- Helper: one unfolding of the pagination loop. -/
theorem fetchLoop_step (server : String → Option ReqParams → Page) (fuel : Nat)
    (url : String) (params : Option ReqParams) :
    fetchLoop server (fuel + 1) url params =
      (let page := server url params
       let newRows := itemRows page.pageItems
       let nl := page.pageNext.getD ""
       if nl = "" then (newRows, [(url, params)])
       else
         let rest := fetchLoop server fuel nl Option.none
         (newRows ++ rest.1, (url, params) :: rest.2)) := rfl

/-- C3: against any server that answers the initial recorded-data request
with a page of 2 items and a continuation link, the continuation with 2
more items and a second link, and the second continuation with 1 item and
no link, `fetch_recorded_all` issues exactly those 3 requests — the first
with the full parameter set, the later ones with the continuation url as
the whole request and no parameters — stops at the page without a link,
and returns the 5 records in their original relative order. -/
theorem C3_pagination (server : String → Option ReqParams → Page)
    (w st en : String) (ps : Nat) (u1 u2 : String)
    (h1 : server (BASE ++ "/streams/" ++ w ++ "/recorded")
        (some ⟨st, en, ps, "Items.Timestamp;Items.Value;Links.Next"⟩) =
        ⟨[item1, item2], some u1⟩)
    (h2 : server u1 Option.none = ⟨[item3, item4], some u2⟩)
    (h3 : server u2 Option.none = ⟨[item5], Option.none⟩)
    (hu1 : u1 ≠ "") (hu2 : u2 ≠ "") :
    fetch_recorded_all server tsParse 3 w st en ps =
      ([⟨10, some 1, Option.none, "1"⟩, ⟨20, some 2, Option.none, "2"⟩,
        ⟨30, some 3, Option.none, "3"⟩, ⟨40, some 4, Option.none, "4"⟩,
        ⟨50, some 5, Option.none, "5"⟩],
       [(BASE ++ "/streams/" ++ w ++ "/recorded",
         some ⟨st, en, ps, "Items.Timestamp;Items.Value;Links.Next"⟩),
        (u1, Option.none), (u2, Option.none)]) := by
  have l1 : fetchLoop server 1 u2 Option.none = (itemRows [item5], [(u2, Option.none)]) := by
    rw [show (1 : Nat) = 0 + 1 from rfl, fetchLoop_step, h3]
    rfl
  have l2 : fetchLoop server 2 u1 Option.none =
      (itemRows [item3, item4] ++ itemRows [item5], [(u1, Option.none), (u2, Option.none)]) := by
    rw [show (2 : Nat) = 1 + 1 from rfl, fetchLoop_step, h2]
    dsimp only
    simp only [Option.getD_some]
    rw [if_neg hu2, l1]
  have l3 : fetchLoop server 3 (BASE ++ "/streams/" ++ w ++ "/recorded")
      (some ⟨st, en, ps, "Items.Timestamp;Items.Value;Links.Next"⟩) =
      (itemRows [item1, item2] ++ (itemRows [item3, item4] ++ itemRows [item5]),
       [(BASE ++ "/streams/" ++ w ++ "/recorded",
         some ⟨st, en, ps, "Items.Timestamp;Items.Value;Links.Next"⟩),
        (u1, Option.none), (u2, Option.none)]) := by
    rw [show (3 : Nat) = 2 + 1 from rfl, fetchLoop_step, h1]
    dsimp only
    simp only [Option.getD_some]
    rw [if_neg hu1, l2]
  unfold fetch_recorded_all
  dsimp only
  rw [l3]
  refine Prod.ext ?_ ?_
  · dsimp only
    decide
  · rfl

/-- C3 witness: the concrete three-page `demoServer`. -/
theorem C3_pagination_witness :
    fetch_recorded_all demoServer tsParse 3 "W1" "*-5y" "*" 10000 =
      ([⟨10, some 1, Option.none, "1"⟩, ⟨20, some 2, Option.none, "2"⟩,
        ⟨30, some 3, Option.none, "3"⟩, ⟨40, some 4, Option.none, "4"⟩,
        ⟨50, some 5, Option.none, "5"⟩],
       [(BASE ++ "/streams/W1/recorded",
         some ⟨"*-5y", "*", 10000, "Items.Timestamp;Items.Value;Links.Next"⟩),
        ("nextA", Option.none), ("nextB", Option.none)]) :=
  C3_pagination demoServer "W1" "*-5y" "*" 10000 "nextA" "nextB" rfl rfl rfl
    (by decide) (by decide)

end

section
attribute [local semireducible] Rat.add Rat.mul Rat.inv Rat.sub

/-- Helper: consecutive differences of a list have one element fewer. -/
theorem consecutiveDiffs_length (l : List ℚ) :
    (consecutiveDiffs l).length = l.length - 1 := by
  induction l with
  | nil => rfl
  | cons a t ih =>
      cases t with
      | nil => rfl
      | cons b r =>
          simp only [consecutiveDiffs, List.length_cons] at ih ⊢
          omega

/-- C4 fails as stated: on the timestamps `[t, t, t+60]` (one duplicate) the
source computes the median over ALL non-null timestamps, so the duplicate
contributes a zero-length gap and the result is 30 s, not the 60 s that the
claimed distinct-timestamp computation yields. -/
theorem C4_counterexample :
    infer_median_interval_seconds [some 0, some 0, some 60] = some 30 ∧
    median_interval_distinct [some 0, some 0, some 60] = some 60 ∧
    infer_median_interval_seconds [some 0, some 0, some 60] ≠
      median_interval_distinct [some 0, some 0, some 60] := by
  decide

/-- C4 amended: the median sampling interval is computed over ALL non-null
timestamps sorted ascending (duplicates retained, each duplicate pair
contributing a zero-length gap), and it is absent exactly when fewer than
two non-null timestamps exist; in particular two equal non-null timestamps
give a median of 0, not an absent value. -/
theorem C4_median_interval_amended (ts : List (Option ℚ)) (q : ℚ) :
    infer_median_interval_seconds ts = median_interval_all_nonnull ts ∧
    infer_median_interval_seconds [some q, some q] = some 0 := by
  constructor
  · unfold infer_median_interval_seconds median_interval_all_nonnull
    by_cases he : ts.isEmpty
    · have : ts = [] := by simpa using he
      subst this
      simp [sortQ]
    · simp only [he, if_false, Bool.false_eq_true]
      by_cases hl : (sortQ (ts.filterMap id)).length < 2
      · simp [hl]
      · have hne : (consecutiveDiffs (sortQ (ts.filterMap id))).isEmpty = false := by
          rw [List.isEmpty_eq_false_iff_exists_mem]
          have hlen := consecutiveDiffs_length (sortQ (ts.filterMap id))
          rcases h : consecutiveDiffs (sortQ (ts.filterMap id)) with _ | ⟨x, xs⟩
          · rw [h] at hlen
            simp at hlen
            omega
          · exact ⟨x, by simp⟩
        simp [hl, hne]
  · unfold infer_median_interval_seconds
    have hsort : sortQ [q, q] = [q, q] := by
      unfold sortQ
      simp [List.insertionSort, List.orderedInsert]
    simp only [List.isEmpty_cons, if_false, Bool.false_eq_true, List.filterMap_cons,
      List.filterMap_nil, id, hsort]
    norm_num [consecutiveDiffs, medianOfList, sortQ, List.insertionSort]

/-- C5 fails as stated: a median interval of exactly 60 s is NOT rendered
as `"60s"` — the seconds bucket is strictly below 60, so 60 s falls into
the minutes bucket and renders as `"1.0 min"`. -/
theorem C5_counterexample :
    human_interval (some 60) = "1.0 min" ∧ human_interval (some 60) ≠ "60s" := by
  decide

/-- C5 amended: the human-readable form buckets by threshold — strictly
below 60 s integer seconds, from 60 s strictly below 3600 s minutes with 1
decimal, from 3600 s strictly below 86400 s hours with 2 decimals,
otherwise days with 2 decimals, `"NA"` when absent; gaps `[60, 60, 120]`
(timestamps 0, 60, 120, 240) give median 60 s whose human form is
`"1.0 min"` (not `"60s"`). -/
theorem C5_human_interval_amended (q : ℚ) :
    human_interval Option.none = "NA" ∧
    (q < 60 → human_interval (some q) = fmtFixed q 0 ++ "s") ∧
    (60 ≤ q → q < 3600 → human_interval (some q) = fmtFixed (q / 60) 1 ++ " min") ∧
    (3600 ≤ q → q < 86400 → human_interval (some q) = fmtFixed (q / 3600) 2 ++ " hr") ∧
    (86400 ≤ q → human_interval (some q) = fmtFixed (q / 86400) 2 ++ " d") ∧
    infer_median_interval_seconds [some 0, some 60, some 120, some 240] = some 60 ∧
    human_interval (some 60) = "1.0 min" := by
  refine ⟨rfl, ?_, ?_, ?_, ?_, by decide, by decide⟩
  · intro h1
    unfold human_interval
    dsimp only
    rw [if_pos h1]
  · intro h1 h2
    unfold human_interval
    dsimp only
    rw [if_neg (not_lt.mpr h1), if_pos h2]
  · intro h1 h2
    unfold human_interval
    dsimp only
    rw [if_neg (not_lt.mpr (le_trans (by norm_num) h1)), if_neg (not_lt.mpr h1), if_pos h2]
  · intro h1
    unfold human_interval
    dsimp only
    rw [if_neg (not_lt.mpr (le_trans (by norm_num) h1)),
      if_neg (not_lt.mpr (le_trans (by norm_num) h1)), if_neg (not_lt.mpr h1)]

/-- C5 witness: the minutes bucket at 90 s renders with one decimal. -/
theorem C5_human_interval_amended_witness :
    (60 : ℚ) ≤ 90 ∧ (90 : ℚ) < 3600 ∧
    human_interval (some (90 : ℚ)) = fmtFixed ((90 : ℚ) / 60) 1 ++ " min" :=
  ⟨by decide, by decide, (C5_human_interval_amended 90).2.2.1 (by decide) (by decide)⟩

end

section
attribute [local semireducible] Rat.add Rat.mul Rat.inv Rat.sub

/-- Helper: the running-counter cumcount equals the positional occurrence
index, given that the counter store agrees with the processed prefix. -/
theorem cumcountRanks_eq_positionalRanks (rem : List SCRow) :
    ∀ (seen : List (String × Nat)) (pre : List SCRow),
      (∀ k : String, (seen.lookup k).getD 0 = pre.countP (fun x => x.series == k)) →
      cumcountRanks seen rem = positionalRanks pre rem := by
  induction rem with
  | nil => intro seen pre _; rfl
  | cons r rest ih =>
      intro seen pre hinv
      unfold cumcountRanks positionalRanks
      dsimp only
      rw [hinv r.series]
      congr 1
      apply ih
      intro k
      by_cases hk : k = r.series
      · subst hk
        simp [List.lookup, List.countP_append, List.countP_cons]
      · have h1 : (k == r.series) = false := beq_eq_false_iff_ne.mpr hk
        have h2 : (r.series == k) = false := beq_eq_false_iff_ne.mpr (Ne.symm hk)
        simp [List.lookup, h1, h2, List.countP_append, List.countP_cons, hinv k]

/-- C6 fails as stated: two rows of one series with equal counts and labels
`"b"`, `"a"` (in that input order) are emitted in input order `b, a` by
the source — the sort key is only (series, count) with a stable sort, there
is no ascending-label tie-break — while the claimed ordering emits `a, b`;
moreover the source drops the rank column before writing, so the output
rows carry no `rank_in_series`. -/
theorem C6_counterexample :
    state_counts_table [⟨"S", "b", 5⟩, ⟨"S", "a", 5⟩] =
      [⟨"S", "b", 5⟩, ⟨"S", "a", 5⟩] ∧
    (claimed_state_counts_table [⟨"S", "b", 5⟩, ⟨"S", "a", 5⟩]).map (·.1) =
      [⟨"S", "a", 5⟩, ⟨"S", "b", 5⟩] ∧
    state_counts_table [⟨"S", "b", 5⟩, ⟨"S", "a", 5⟩] ≠
      (claimed_state_counts_table [⟨"S", "b", 5⟩, ⟨"S", "a", 5⟩]).map (·.1) := by
  decide

/-- C6 amended: the cross-series state-count output is the stable sort of
the collected rows by (series ascending, count descending) — ties of equal
count stay in input order, with no label tie-break — from which each row is
retained exactly when its 1-based positional occurrence index within its
series is at most 10; the rank is then dropped, so the output columns are
series, value_str, count, and the result is a deterministic function of
the collected rows. -/
theorem C6_state_counts_amended (rows : List SCRow) :
    state_counts_table rows = state_counts_table_positional rows := by
  unfold state_counts_table state_counts_table_positional
  rw [cumcountRanks_eq_positionalRanks (List.insertionSort scR rows) [] []
    (fun _ => rfl)]

end

section
attribute [local semireducible] Rat.add Rat.mul Rat.inv Rat.sub

/-- Helper: the outcome of one series pull does not depend on the current
file store. -/
theorem pull_result_ignores_store (env : PiEnv) (t p d : String) (fs : FileStore) :
    (pull_one_tag_to_parquet env t p d fs).1 = (pull_one_tag_to_parquet env t p d []).1 := by
  cases hr : env.resolve p with
  | error e1 => simp [pull_one_tag_to_parquet, hr]
  | ok w =>
      cases hf : env.fetchDF w with
      | error e1 => simp [pull_one_tag_to_parquet, hr, hf]
      | ok df =>
          cases hp : env.persistErr (d ++ "/" ++ t ++ ".parquet") with
          | some e1 => simp [pull_one_tag_to_parquet, hr, hf, hp]
          | none => simp [pull_one_tag_to_parquet, hr, hf, hp]

/-- Helper: the `__main__` loop emits exactly one console line per tag, and
each line is the per-tag line of that tag alone. -/
theorem main_loop_log (env : PiEnv) (d : String) (tags : List (String × String)) :
    ∀ acc : List String × FileStore,
      (main_loop env d tags acc).1 = acc.1 ++ tags.map (logLineOf env d) := by
  induction tags with
  | nil => intro acc; simp [main_loop]
  | cons tp rest ih =>
      intro acc
      unfold main_loop
      dsimp only
      rw [ih]
      rw [List.append_assoc, List.singleton_append, List.map_cons]
      congr 2
      unfold logLineOf
      rw [← pull_result_ignores_store env tp.1 tp.2 d acc.2]

/-- C7: (1) a pull whose resolution, fetch or persistence fails returns an
error and leaves the file store untouched — no partial data for that
series; (2) the orchestration emits one line per requested series, each a
function of that series alone, so it proceeds past failures; (3) a failed
series is reported by a line naming its tag and its path; (4) the line of a
series depends only on the environment's answers to that series' own
requests, so it is unaffected by any sibling series' failure. -/
theorem C7_failure_isolation (env env2 : PiEnv) (t p d e : String) (fs : FileStore)
    (tags : List (String × String)) :
    ((pull_one_tag_to_parquet env t p d fs).1 = .error e →
      (pull_one_tag_to_parquet env t p d fs).2 = fs) ∧
    ((run_main env d tags).1 = tags.map (logLineOf env d)) ∧
    ((pull_one_tag_to_parquet env t p d fs).1 = .error e →
      logLineOf env d (t, p) = "[FAILED] " ++ t ++ " (" ++ p ++ ") :: " ++ e) ∧
    (env2.resolve p = env.resolve p →
      (∀ w, env.resolve p = .ok w → env2.fetchDF w = env.fetchDF w) →
      env2.persistErr (d ++ "/" ++ t ++ ".parquet") =
        env.persistErr (d ++ "/" ++ t ++ ".parquet") →
      logLineOf env2 d (t, p) = logLineOf env d (t, p)) := by
  refine ⟨?_, main_loop_log env d tags ([], []), ?_, ?_⟩
  · intro h
    cases hr : env.resolve p with
    | error e1 => simp [pull_one_tag_to_parquet, hr]
    | ok w =>
        cases hf : env.fetchDF w with
        | error e1 => simp [pull_one_tag_to_parquet, hr, hf]
        | ok df =>
            cases hp : env.persistErr (d ++ "/" ++ t ++ ".parquet") with
            | some e1 => simp [pull_one_tag_to_parquet, hr, hf, hp]
            | none => simp [pull_one_tag_to_parquet, hr, hf, hp] at h
  · intro h
    have h0 : (pull_one_tag_to_parquet env t p d []).1 = .error e := by
      rw [← pull_result_ignores_store env t p d fs]
      exact h
    unfold logLineOf
    dsimp only
    rw [h0]
  · intro hr2 hf2 hp2
    unfold logLineOf pull_one_tag_to_parquet
    dsimp only
    rw [hr2]
    cases hres : env.resolve p with
    | error e1 => rfl
    | ok w =>
        dsimp only
        rw [hf2 w hres]
        cases hfetch : env.fetchDF w with
        | error e1 => rfl
        | ok df =>
            dsimp only
            rw [hp2]

/-- C7 witness: with an environment whose resolution always fails, the
store stays empty, the console line names the tag and path, and a two-tag
run still emits both per-tag lines. -/
theorem C7_failure_isolation_witness :
    (pull_one_tag_to_parquet envResolveFail "T1" "PATH1" "DATA/RAW" []).2 = [] ∧
    logLineOf envResolveFail "DATA/RAW" ("T1", "PATH1") =
      "[FAILED] T1 (PATH1) :: No WebId in /points response" ∧
    (run_main envResolveFail "DATA/RAW" [("T1", "PATH1"), ("T2", "PATH2")]).1 =
      [logLineOf envResolveFail "DATA/RAW" ("T1", "PATH1"),
       logLineOf envResolveFail "DATA/RAW" ("T2", "PATH2")] :=
  ⟨(C7_failure_isolation envResolveFail envResolveFail "T1" "PATH1" "DATA/RAW"
      "No WebId in /points response" [] []).1 rfl,
   by
    rw [(C7_failure_isolation envResolveFail envResolveFail "T1" "PATH1" "DATA/RAW"
      "No WebId in /points response" [] []).2.2.1 rfl]
    rfl,
   (C7_failure_isolation envResolveFail envResolveFail "T1" "PATH1" "DATA/RAW"
      "No WebId in /points response" [] [("T1", "PATH1"), ("T2", "PATH2")]).2.1⟩

end

section
attribute [local semireducible] Rat.add Rat.mul Rat.inv Rat.sub

/-- C8: an empty series summary has `value_num_pct = 0` with no
division-by-zero fault and absent start/end instants; a non-empty series
has `value_num_pct = round(100 * valueNumNonNullCount / rows, 2)`. -/
theorem C8_zero_row_safety (s f : String) (rows : List InspectRow) :
    (rows = [] →
      (inspect_one_file_summary s f rows).value_num_pct = 0 ∧
      (inspect_one_file_summary s f rows).start_utc = Option.none ∧
      (inspect_one_file_summary s f rows).end_utc = Option.none) ∧
    (rows ≠ [] →
      (inspect_one_file_summary s f rows).value_num_pct =
        round2 (100 * (((rows.map (·.value_num)).filterMap id).length : ℚ) /
          (rows.length : ℚ))) := by
  constructor
  · rintro rfl
    refine ⟨?_, rfl, rfl⟩
    unfold inspect_one_file_summary round2 roundHalfEven
    norm_num
  · intro h
    have hn : rows.length ≠ 0 := by
      intro h0
      exact h (List.length_eq_zero.mp h0)
    unfold inspect_one_file_summary
    dsimp only
    rw [if_neg hn]
    congr 1
    ring

/-- C8 witness: the empty series, and a 2-row series with one non-null
`value_num` giving 50 %. -/
theorem C8_zero_row_safety_witness :
    (inspect_one_file_summary "s" "f" []).value_num_pct = 0 ∧
    (inspect_one_file_summary "s" "f" []).start_utc = Option.none ∧
    (inspect_one_file_summary "s" "f"
      [⟨some 0, some 1, Option.none⟩, ⟨some 1, Option.none, some "x"⟩]).value_num_pct = 50 :=
  ⟨((C8_zero_row_safety "s" "f" []).1 rfl).1,
   ((C8_zero_row_safety "s" "f" []).1 rfl).2.1,
   ((C8_zero_row_safety "s" "f"
      [⟨some 0, some 1, Option.none⟩, ⟨some 1, Option.none, some "x"⟩]).2
      (by decide)).trans (by decide)⟩

/-- C9 fails as stated: a series whose fetch returned zero records is
persisted with only the four value columns — the `tag` and `path` columns
are inserted only when the frame is non-empty. -/
theorem C9_counterexample :
    (persist_df "WP_WC_Nitrate_River"
      "\\\\piserver.facilities.uiowa.edu\\WP_WC_Nitrate_River" []).cols =
      ["timestamp", "value_num", "value_str", "value_raw"] ∧
    (persist_df "WP_WC_Nitrate_River"
      "\\\\piserver.facilities.uiowa.edu\\WP_WC_Nitrate_River" []).cols ≠
      ["tag", "path", "timestamp", "value_num", "value_str", "value_raw"] := by
  decide

/-- C9 amended: a series persisted from a NON-empty fetch has the six
columns tag, path, timestamp, value_num, value_str, value_raw (with the
provenance values filled in); a series whose fetch returned zero records is
still persisted, but with only the four value columns and no provenance. -/
theorem C9_persisted_schema (t p : String) (data : List ParsedRow) :
    (data ≠ [] →
      (persist_df t p data).cols =
        ["tag", "path", "timestamp", "value_num", "value_str", "value_raw"] ∧
      (persist_df t p data).provenance = some (t, p)) ∧
    (data = [] →
      (persist_df t p data).cols = ["timestamp", "value_num", "value_str", "value_raw"] ∧
      (persist_df t p data).provenance = Option.none) := by
  constructor
  · intro h
    unfold persist_df
    rw [if_neg (by simpa using h)]
    exact ⟨rfl, rfl⟩
  · rintro rfl
    exact ⟨rfl, rfl⟩

/-- C9 witness: one-row data gives the six-column file, empty data the
four-column file. -/
theorem C9_persisted_schema_witness :
    (persist_df "T" "P" [⟨0, Option.none, Option.none, "null"⟩]).cols =
      ["tag", "path", "timestamp", "value_num", "value_str", "value_raw"] ∧
    (persist_df "T" "P" []).cols = ["timestamp", "value_num", "value_str", "value_raw"] :=
  ⟨((C9_persisted_schema "T" "P" [⟨0, Option.none, Option.none, "null"⟩]).1
      (List.cons_ne_nil _ _)).1,
   ((C9_persisted_schema "T" "P" []).2 rfl).1⟩

end
